/-
Verification of the py-spanner-mutex distributed mutex core.

Shallow embedding of the repository's Python sources:
  src/py_spanner_mutex/dto/mutex.py        (MutexStatus, MutexState, MutexConfig)
  src/py_spanner_mutex/spanner_mutex.py    (SpannerMutex controller and decision engine)

Modelling conventions:
  * UTC timestamps are integers (a fixed time unit); durations from the config
    are naturals, matching the integer second fields of the Python code.
  * Python `uuid.UUID` values are naturals (the UUID's 128-bit integer value);
    their canonical hyphenated hex string form is modelled exactly.
  * Fallible Python code (raising) is modelled with `Except`/`Option`.
  * The Cloud Spanner client is out of scope; its calls are oracles
    (`ReadOutcome`, `UpsertOutcome`) matching the TRS adapter contract.
-/
import Mathlib

deriving instance DecidableEq for Except

namespace PySpannerMutex

/-- Mutex status enum from dto/mutex.py (`MutexStatus`). -/
inductive MutexStatus
| DONE
| STARTED
| FAILED
| UNKNOWN
deriving DecidableEq, BEq, Repr

/-- Wire value of each status, from dto/mutex.py lines 26-29. -/
def MutexStatus.value : MutexStatus → String
| .DONE => "done"
| .STARTED => "started"
| .FAILED => "failed"
| .UNKNOWN => ""

/-- ASCII lowercasing of one character, Python's `str.lower` restricted to
the ASCII strings the status enum uses. -/
def lowerChar (c : Char) : Char :=
  if 65 ≤ c.toNat && c.toNat ≤ 90 then Char.ofNat (c.toNat + 32) else c

/-- ASCII lowercasing of a string. -/
def lower (s : String) : String :=
  String.mk (s.data.map lowerChar)

/-- Modelled from the spec: `EnumWithFromStrIgnoreCase.from_str` lives in
`common/dto_defaults.py`, which is not under src/. Per the class name and the
spec's status enum (section 3), it matches the enum value ignoring case and
falls back to the default member `UNKNOWN` (`MutexStatus.default()`). -/
def MutexStatus.from_str (value : String) : MutexStatus :=
  if lower value == "done" then .DONE
  else if lower value == "started" then .STARTED
  else if lower value == "failed" then .FAILED
  else .UNKNOWN

/-- Hex digit character for a value below 16, lowercase, as produced by
Python's `str(uuid.UUID)`. -/
def hexDigitChar (d : Nat) : Char :=
  if d < 10 then Char.ofNat (48 + d) else Char.ofNat (87 + d)

/-- Value of a hex character, accepting both cases as Python's `int(s, 16)`
does; `none` on a non-hex character. -/
def hexCharVal (c : Char) : Option Nat :=
  if 48 ≤ c.toNat && c.toNat ≤ 57 then some (c.toNat - 48)
  else if 97 ≤ c.toNat && c.toNat ≤ 102 then some (c.toNat - 87)
  else if 65 ≤ c.toNat && c.toNat ≤ 70 then some (c.toNat - 55)
  else none

def lbraceChar : Char := Char.ofNat 123

def rbraceChar : Char := Char.ofNat 125

def hyphenChar : Char := Char.ofNat 45

def is_brace (c : Char) : Bool := c == lbraceChar || c == rbraceChar

/-- Exactly `k` little-endian base-16 digits of `n`, zero-padded. -/
def hexDigitsPadded : Nat → Nat → List Nat
| 0, _ => []
| k + 1, n => (n % 16) :: hexDigitsPadded k (n / 16)

/-- Little-endian base-16 digits of a UUID value, zero-padded to the 32
digits of `'%032x' % int`. -/
def uuidDigitsLE (u : Nat) : List Nat :=
  hexDigitsPadded 32 u

/-- Big-endian hex characters of a UUID value. -/
def uuidHexChars (u : Nat) : List Char :=
  ((uuidDigitsLE u).reverse).map hexDigitChar

/-- Hyphenation of the 32 hex characters into the canonical 8-4-4-4-12
groups of `str(uuid.UUID)`. -/
def insertHyphens (l : List Char) : List Char :=
  l.take 8 ++ hyphenChar ::
    ((l.drop 8).take 4 ++ hyphenChar ::
      ((l.drop 12).take 4 ++ hyphenChar ::
        ((l.drop 16).take 4 ++ hyphenChar :: l.drop 20)))

/-- Canonical string form of a UUID value: Python's `str(uuid.UUID)`. -/
def uuid_str (u : Nat) : String :=
  String.mk (insertHyphens (uuidHexChars u))

/-- Both-ends strip of brace characters, Python's `s.strip(chars)` with the
brace pair as `chars`, as done by the `uuid.UUID` constructor on its `hex`
argument. -/
def strip_braces (l : List Char) : List Char :=
  ((l.dropWhile is_brace).reverse.dropWhile is_brace).reverse

/-- All-or-nothing hex evaluation of a character list, Python's `int(s, 16)`. -/
def hexVals : List Char → Option (List Nat)
| [] => some []
| c :: t =>
  match hexCharVal c with
  | none => none
  | some d =>
    match hexVals t with
    | none => none
    | some ds => some (d :: ds)

/-- Python stdlib `uuid.UUID(hex=s)`: strip surrounding braces, remove
hyphens, require exactly 32 hex digits, read them as a base-16 integer. The
stdlib is not part of the repository; this models its documented behaviour
on the brace-wrapped canonical strings the repository feeds it. -/
def uuid_from_str (s : String) : Option Nat :=
  let hexs := (strip_braces s.data).filter (fun c => c != hyphenChar)
  if hexs.length == 32 then
    match hexVals hexs with
    | none => none
    | some ds => some (Nat.ofDigits 16 ds.reverse)
  else none

/-- Brace-wrapping of a string, Python's f-string `f"\x7b\x7b\x7b{value}\x7d\x7d\x7d"`
pattern which renders as a braced UUID string. -/
def braced (s : String) : String :=
  String.mk (lbraceChar :: (s.data ++ [rbraceChar]))

/-- String-to-UUID conversion from dto/mutex.py `_str_uuid_converter` (string
branch): `sys_uuid.UUID` applied to the brace-wrapped string. -/
def str_uuid_converter (s : String) : Option Nat :=
  uuid_from_str (braced s)

/-- Mutex row DTO from dto/mutex.py (`MutexState`). -/
structure MutexState where
  uuid : Nat
  display_name : String
  status : MutexStatus
  update_time_utc : Int
  update_client_uuid : Nat
  update_client_display_name : String
deriving DecidableEq, Repr

/-- Value held by the `update_time_utc` column of a raw Spanner row: either a
real timestamp or the `spanner.COMMIT_TIMESTAMP` placeholder sentinel. -/
inductive TimeCell
| commit_ts
| at_time (t : Int)
deriving DecidableEq, Repr

/-- Raw Spanner row (a dict keyed by the mutex table's columns); the
`update_time_utc` key may be missing (`none`). -/
structure SpannerRow where
  uuid : String
  display_name : String
  status : String
  update_time_utc : Option TimeCell
  update_client_uuid : String
  update_client_display_name : String
deriving DecidableEq, Repr

/-- Decoder from dto/mutex.py `MutexState.from_spanner_row`. A missing
`update_time_utc` defaults to `datetime.utcnow()`, the decode-time clock
`now_utc`; the commit-timestamp sentinel is a string there and raising
`astimezone` on it is an error. The two UUID columns are brace-wrapped and
parsed (`_str_uuid_converter` / `sys_uuid.UUID`), raising on malformed input. -/
def MutexState.from_spanner_row (row : SpannerRow) (now_utc : Int) : Except String MutexState :=
  let update_time_utc : Except String Int :=
    match row.update_time_utc with
    | none => Except.ok now_utc
    | some (TimeCell.at_time t) => Except.ok t
    | some TimeCell.commit_ts => Except.error "update_time_utc column does not hold a timestamp"
  match update_time_utc with
  | Except.error e => Except.error e
  | Except.ok update_time_utc =>
    match str_uuid_converter row.uuid with
    | none => Except.error "uuid column does not hold a uuid"
    | some u =>
      match str_uuid_converter row.update_client_uuid with
      | none => Except.error "update_client_uuid column does not hold a uuid"
      | some cu =>
        Except.ok
          { uuid := u, display_name := row.display_name,
            status := MutexStatus.from_str row.status,
            update_time_utc := update_time_utc, update_client_uuid := cu,
            update_client_display_name := row.update_client_display_name }

/-- Encoder from dto/mutex.py `MutexState.to_spanner_row`: `as_dict` with the
UUIDs stringified, the status replaced by its wire value, and, when
`with_commit_ts`, the `update_time_utc` replaced by the commit-timestamp
placeholder. -/
def MutexState.to_spanner_row (s : MutexState) (with_commit_ts : Bool) : SpannerRow :=
  { uuid := uuid_str s.uuid,
    display_name := s.display_name,
    status := s.status.value,
    update_time_utc :=
      if with_commit_ts then some TimeCell.commit_ts else some (TimeCell.at_time s.update_time_utc),
    update_client_uuid := uuid_str s.update_client_uuid,
    update_client_display_name := s.update_client_display_name }

/-- Replacement of the row's `update_time_utc` by a known timestamp, as the
TRS does at commit time. -/
def SpannerRow.set_update_time (row : SpannerRow) (t : Int) : SpannerRow :=
  { row with update_time_utc := some (TimeCell.at_time t) }

def MIN_MUTEX_TTL_IN_SECONDS : Int := 10

def MIN_MUTEX_WAIT_TIME_IN_SECONDS : Int := 1

def MIN_MUTEX_STALENESS_IN_SECONDS : Int := MIN_MUTEX_TTL_IN_SECONDS + 1

def MIN_MUTEX_MAX_RETRIES : Int := 5

/-- Configuration DTO from dto/mutex.py (`MutexConfig`), after successful
validation (hence natural-number duration fields). -/
structure MutexConfig where
  mutex_uuid : Nat
  instance_id : String
  database_id : String
  table_id : String
  project_id : Option String
  mutex_display_name : Option String
  mutex_ttl_in_secs : Nat
  mutex_staleness_in_secs : Nat
  mutex_wait_time_in_secs : Nat
  mutex_max_retries : Nat
deriving DecidableEq, Repr

/-- Construction of a `MutexConfig` from dto/mutex.py: the per-field
`attrs.validators.ge` bounds run in field order, then
`__attrs_post_init__` enforces
`mutex_staleness_in_secs > max(mutex_max_retries * mutex_wait_time_in_secs, mutex_ttl_in_secs)`.
Any violation raises, modelled as `Except.error`. -/
def mkMutexConfig (mutex_uuid : Nat) (instance_id database_id table_id : String)
    (project_id mutex_display_name : Option String)
    (mutex_ttl_in_secs mutex_staleness_in_secs mutex_wait_time_in_secs mutex_max_retries : Int) :
    Except String MutexConfig :=
  if mutex_ttl_in_secs < MIN_MUTEX_TTL_IN_SECONDS then
    Except.error "mutex_ttl_in_secs below minimum"
  else if mutex_staleness_in_secs < MIN_MUTEX_STALENESS_IN_SECONDS then
    Except.error "mutex_staleness_in_secs below minimum"
  else if mutex_wait_time_in_secs < MIN_MUTEX_WAIT_TIME_IN_SECONDS then
    Except.error "mutex_wait_time_in_secs below minimum"
  else if mutex_max_retries < MIN_MUTEX_MAX_RETRIES then
    Except.error "mutex_max_retries below minimum"
  else if mutex_staleness_in_secs ≤ max (mutex_max_retries * mutex_wait_time_in_secs) mutex_ttl_in_secs then
    Except.error "staleness must be higher than the maximum of TTL and retry max time"
  else
    Except.ok
      { mutex_uuid := mutex_uuid, instance_id := instance_id, database_id := database_id,
        table_id := table_id, project_id := project_id, mutex_display_name := mutex_display_name,
        mutex_ttl_in_secs := mutex_ttl_in_secs.toNat,
        mutex_staleness_in_secs := mutex_staleness_in_secs.toNat,
        mutex_wait_time_in_secs := mutex_wait_time_in_secs.toNat,
        mutex_max_retries := mutex_max_retries.toNat }

/-- Freshness test from dto/mutex.py `MutexState.is_state_stale` (lines
48-58): it returns `update_time_utc + ttl_in_secs > utcnow()`, despite its
docstring saying it verifies that the update time is older than the TTL. -/
def MutexState.is_state_stale (s : MutexState) (ttl_in_secs : Int) (now_utc : Int) : Bool :=
  decide (s.update_time_utc + ttl_in_secs > now_utc)

namespace SpannerMutex

/-- Controller staleness test from spanner_mutex.py `_is_state_stale` (lines
242-249): state absent, or last update older than the staleness threshold. -/
def is_state_stale (config : MutexConfig) (state : Option MutexState) (now_utc : Int) : Bool :=
  match state with
  | none => true
  | some s => decide (s.update_time_utc + (config.mutex_staleness_in_secs : Int) < now_utc)

/-- From spanner_mutex.py `_is_critical_section_done_or_started` (lines
251-253). -/
def is_critical_section_done_or_started (state : Option MutexState) : Bool :=
  match state with
  | none => false
  | some s => s.status == MutexStatus.DONE || s.status == MutexStatus.STARTED

/-- Upper bound of the jitter from spanner_mutex.py `_jitter_in_secs` (lines
262-264): `int(max(ttl * 0.05, 1))`, with the 5% float product modelled as
the exact `ttl / 20` integer division. `_RAND.randint(0, bound)` is
inclusive, so the drawn jitter ranges over `[0, bound]`. -/
def max_jitter_in_secs (config : MutexConfig) : Nat :=
  max (config.mutex_ttl_in_secs / 20) 1

/-- Watermark test from spanner_mutex.py `_is_watermark_breached` (lines
255-260); the drawn jitter is passed explicitly. For a present state it
returns `MutexState.is_state_stale (ttl + jitter)`. -/
def is_watermark_breached (config : MutexConfig) (jitter_in_secs : Nat)
    (state : Option MutexState) (now_utc : Int) : Bool :=
  match state with
  | none => true
  | some s => s.is_state_stale ((config.mutex_ttl_in_secs : Int) + (jitter_in_secs : Int)) now_utc

/-- Watermark predicate as the spec words it (section 4.2): true iff the
state is absent or `update_time_utc + T + jitter < now_utc`. Kept separate
from `is_watermark_breached`, which is translated from the source, so the
two can be compared. -/
def is_watermark_breached_spec (config : MutexConfig) (jitter_in_secs : Nat)
    (state : Option MutexState) (now_utc : Int) : Bool :=
  match state with
  | none => true
  | some s =>
    decide (s.update_time_utc + (config.mutex_ttl_in_secs : Int) + (jitter_in_secs : Int) < now_utc)

/-- Acquisition decision from spanner_mutex.py `_should_try_to_acquire_mutex`
(lines 225-240). -/
def should_try_to_acquire_mutex (config : MutexConfig) (jitter_in_secs : Nat)
    (state : Option MutexState) (now_utc : Int) : Bool :=
  match state with
  | none => true
  | some s =>
    if is_state_stale config (some s) now_utc then true
    else if !is_critical_section_done_or_started (some s)
        && is_watermark_breached config jitter_in_secs (some s) now_utc then true
    else false

/-- Transactional predicate from spanner_mutex.py `can_upsert` (lines
302-321), closed over the client's config and uuid. `existing_row` is the
keyed read inside the transaction (`none` when `next` raises
`StopIteration`, which is caught and leaves the result `True`); `row` is the
candidate row being written. Decoding failures of the existing row
propagate out of the predicate. -/
def can_upsert (config : MutexConfig) (client_uuid : Nat) (jitter_in_secs : Nat)
    (existing_row : Option SpannerRow) (row : SpannerRow) (now_utc : Int) : Except String Bool :=
  match existing_row with
  | none => Except.ok true
  | some er =>
    match MutexState.from_spanner_row er now_utc with
    | Except.error e => Except.error e
    | Except.ok curr_state =>
      if curr_state.update_client_uuid == client_uuid && row.status != er.status then
        Except.ok true
      else
        Except.ok (should_try_to_acquire_mutex config jitter_in_secs (some curr_state) now_utc)

/-- Modelled from the spec: the TRS adapter's `conditional_upsert` (section
4.1, `gcp/spanner.py` `conditional_upsert_table_row`, not under src/)
returns whether the upsert was committed, or raises on infrastructure
errors. Its run on a given call is abstracted as this oracle outcome. -/
inductive UpsertOutcome
| committed (committed : Bool)
| raises (msg : String)
deriving DecidableEq, Repr

/-- Write attempt from spanner_mutex.py `_set_mutex` (lines 291-331): the row
for `state` is sent through the conditional upsert; any raise from the TRS
call is caught and turned into `False`. -/
def set_mutex (state : MutexState) (outcome : UpsertOutcome) : Bool :=
  match state, outcome with
  | _, UpsertOutcome.committed committed => committed
  | _, UpsertOutcome.raises _ => false

/-- Candidate state builder from spanner_mutex.py `_create_state` (lines
276-289). -/
def create_state (config : MutexConfig) (client_uuid : Nat) (client_display_name : String)
    (status : MutexStatus) (now_utc : Int) : MutexState :=
  { uuid := config.mutex_uuid,
    display_name :=
      match config.mutex_display_name with
      | some d => d
      | none => uuid_str config.mutex_uuid,
    status := status,
    update_time_utc := now_utc,
    update_client_uuid := client_uuid,
    update_client_display_name := client_display_name }

/-- Errors raised as `SpannerMutexError` by spanner_mutex.py. -/
inductive SpannerMutexError
| could_not_release (state : MutexState) (cause : Option String)
| critical_section_failed (cause : String)
| callback_failed (method : String) (cause : String)
| validation_failed (cause : String)
deriving DecidableEq, Repr

/-- Message rendering of a `SpannerMutexError`, standing in for `str(err)`
when the exception is chained into another one. -/
def SpannerMutexError.msg : SpannerMutexError → String
| .could_not_release _ _ => "could not release mutex"
| .critical_section_failed cause => cause
| .callback_failed method cause => method ++ ": " ++ cause
| .validation_failed cause => cause

/-- State written by `_release_mutex` (spanner_mutex.py lines 336-338):
status `DONE` when no error is carried, else `FAILED`. -/
def release_state (config : MutexConfig) (client_uuid : Nat) (client_display_name : String)
    (now_utc : Int) (error : Option String) : MutexState :=
  create_state config client_uuid client_display_name
    (match error with
     | none => MutexStatus.DONE
     | some _ => MutexStatus.FAILED) now_utc

/-- Release from spanner_mutex.py `_release_mutex` (lines 336-346): raises
when `_set_mutex` reports failure, and raises chaining `error` even on a
successful upsert when an error is carried. -/
def release_mutex (config : MutexConfig) (client_uuid : Nat) (client_display_name : String)
    (now_utc : Int) (error : Option String) (outcome : UpsertOutcome) :
    Except SpannerMutexError Unit :=
  let state := release_state config client_uuid client_display_name now_utc error
  if !(set_mutex state outcome) then
    Except.error (SpannerMutexError.could_not_release state error)
  else
    match error with
    | some e => Except.error (SpannerMutexError.critical_section_failed e)
    | none => Except.ok ()

/-- Modelled from the spec: outcome of the TRS adapter's snapshot read
(`gcp/spanner.py` `read_table_rows`, section 4.1): the keyed rows, or an
infrastructure failure raised while reading. -/
inductive ReadOutcome
| rows (rows : List SpannerRow)
| raises (msg : String)
deriving DecidableEq, Repr

/-- Exceptions escaping controller entry points. -/
inductive PyErr
| raw (msg : String)
| decode_failure (msg : String)
| mutex (e : SpannerMutexError)
deriving DecidableEq, Repr

def PyErr.is_mutex_error : PyErr → Bool
| .mutex _ => true
| _ => false

/-- Snapshot state read from spanner_mutex.py `_state` (lines 125-136): only
`StopIteration` (no row) is caught; an infrastructure failure of the read,
and a decode failure of the returned row, propagate unchanged. -/
def state (read : ReadOutcome) (now_utc : Int) : Except PyErr (Option MutexState) :=
  match read with
  | ReadOutcome.raises msg => Except.error (PyErr.raw msg)
  | ReadOutcome.rows [] => Except.ok none
  | ReadOutcome.rows (r :: _) =>
    match MutexState.from_spanner_row r now_utc with
    | Except.ok s => Except.ok (some s)
    | Except.error m => Except.error (PyErr.decode_failure m)

/-- Status property from spanner_mutex.py `status` (lines 114-123):
`UNKNOWN` when no state, else the state's status. -/
def status (read : ReadOutcome) (now_utc : Int) : Except PyErr MutexStatus :=
  match state read now_utc with
  | Except.error e => Except.error e
  | Except.ok none => Except.ok MutexStatus.UNKNOWN
  | Except.ok (some s) => Except.ok s.status

/-- Environment of one cycle of the `start()` loop: the user callback
answer, the snapshot read, the clock, the jitter drawn in this cycle, and
the oracles for the TRS calls the cycle may make. -/
structure CycleEnv where
  needed : Except String Bool
  read : ReadOutcome
  now_utc : Int
  jitter_in_secs : Nat
  acquire_outcome : UpsertOutcome
  critical_section_error : Option String
  release_outcome : UpsertOutcome
  release_after_error_outcome : UpsertOutcome

/-- Result of a run of `start()`. -/
inductive StartResult
| normal (retries : Nat) (has_executed : Bool)
| failed (e : PyErr)
| out_of_fuel
deriving DecidableEq, Repr

/-- Outcome of one execution of the loop body of `start()`: fall through to
the sleep and retry increment, break out with the critical section
executed, or let an exception propagate out of `start`. -/
inductive CycleOutcome
| proceed
| break_executed
| raise_err (e : PyErr)
deriving DecidableEq, Repr

/-- One iteration body of the `start()` loop (spanner_mutex.py lines
176-197): read the state (a read failure propagates), decide whether to
try, attempt the acquire, and on success run the critical section and
release. A successful critical section releases and breaks; a raising
critical section, or a raising success-path release (both caught by the
`except` block), trigger `_release_mutex(error=err)`, which lets the loop
continue if it returns (it cannot: with an error carried it always raises)
and otherwise propagates. -/
def run_cycle (config : MutexConfig) (client_uuid : Nat) (client_display_name : String)
    (c : CycleEnv) : CycleOutcome :=
  match state c.read c.now_utc with
  | Except.error e => CycleOutcome.raise_err e
  | Except.ok st =>
    if should_try_to_acquire_mutex config c.jitter_in_secs st c.now_utc then
      if set_mutex
          (create_state config client_uuid client_display_name MutexStatus.STARTED c.now_utc)
          c.acquire_outcome then
        match c.critical_section_error with
        | none =>
          match release_mutex config client_uuid client_display_name c.now_utc none
              c.release_outcome with
          | Except.ok _ => CycleOutcome.break_executed
          | Except.error e1 =>
            match release_mutex config client_uuid client_display_name c.now_utc
                (some e1.msg) c.release_after_error_outcome with
            | Except.ok _ => CycleOutcome.proceed
            | Except.error e2 => CycleOutcome.raise_err (PyErr.mutex e2)
        | some cse =>
          match release_mutex config client_uuid client_display_name c.now_utc
              (some (SpannerMutexError.msg
                (SpannerMutexError.callback_failed "execute_critical_section" cse)))
              c.release_after_error_outcome with
          | Except.ok _ => CycleOutcome.proceed
          | Except.error e2 => CycleOutcome.raise_err (PyErr.mutex e2)
      else CycleOutcome.proceed
    else CycleOutcome.proceed

/-- Acquisition loop from spanner_mutex.py `start` (lines 166-209),
translated iteration by iteration. The loop condition evaluates
`_safe_is_mutex_needed()` first (a raising callback surfaces as a
`SpannerMutexError` even when the retry budget is exhausted) and then
`retries < mutex_max_retries`. `fuel` only bounds the recursion; `start`
supplies `mutex_max_retries`, which the loop can never exceed because
`retries` grows by one per iteration. -/
def start_loop (config : MutexConfig) (client_uuid : Nat) (client_display_name : String)
    (env : Nat → CycleEnv) : Nat → Nat → Bool → StartResult
| fuel, retries, has_executed =>
  match (env retries).needed with
  | Except.error e =>
    StartResult.failed (PyErr.mutex (SpannerMutexError.callback_failed "is_mutex_needed" e))
  | Except.ok needed =>
    if needed && decide (retries < config.mutex_max_retries) then
      match fuel with
      | 0 => StartResult.out_of_fuel
      | fuel' + 1 =>
        match run_cycle config client_uuid client_display_name (env retries) with
        | CycleOutcome.proceed =>
          start_loop config client_uuid client_display_name env fuel' (retries + 1) has_executed
        | CycleOutcome.break_executed => StartResult.normal retries true
        | CycleOutcome.raise_err e => StartResult.failed e
    else StartResult.normal retries has_executed

/-- Entry point from spanner_mutex.py `start` (lines 166-209): validates the
infrastructure first (raising `SpannerMutexError` on failure), then runs
the loop from zero retries. -/
def start (config : MutexConfig) (client_uuid : Nat) (client_display_name : String)
    (validate_error : Option String) (env : Nat → CycleEnv) : StartResult :=
  match validate_error with
  | some e => StartResult.failed (PyErr.mutex (SpannerMutexError.validation_failed e))
  | none =>
    start_loop config client_uuid client_display_name env config.mutex_max_retries 0 false

end SpannerMutex

/-- Smallest configuration the validators accept: TTL 10s, staleness 11s,
wait 1s, 5 retries. -/
def cfg_min : MutexConfig :=
  { mutex_uuid := 0, instance_id := "i", database_id := "d", table_id := "t",
    project_id := none, mutex_display_name := none,
    mutex_ttl_in_secs := 10, mutex_staleness_in_secs := 11,
    mutex_wait_time_in_secs := 1, mutex_max_retries := 5 }

/-- Fixture state of client 1 with a given update time and status. -/
def state_at (t : Int) (status : MutexStatus) : MutexState :=
  { uuid := 0, display_name := "m", status := status, update_time_utc := t,
    update_client_uuid := 1, update_client_display_name := "c" }

/-- Fixture state held by client 5 with status `STARTED`. -/
def state_started5 : MutexState :=
  { uuid := 0, display_name := "m", status := MutexStatus.STARTED, update_time_utc := 0,
    update_client_uuid := 5, update_client_display_name := "c" }

/-- Fixture stored row: `state_started5` as read back from the table. -/
def row_started5 : SpannerRow :=
  state_started5.to_spanner_row false

/-- Fixture candidate row: client 5 writing status `DONE`. -/
def row_candidate_done : SpannerRow :=
  ({ state_started5 with status := MutexStatus.DONE } : MutexState).to_spanner_row true

/-- Fixture raw row whose `update_time_utc` column is missing. -/
def row_no_time : SpannerRow :=
  { uuid := uuid_str 0, display_name := "m", status := "done", update_time_utc := none,
    update_client_uuid := uuid_str 5, update_client_display_name := "c" }

/-- Fixture loop environment: the mutex is always needed, the table is
empty, and every acquire attempt comes back uncommitted. -/
def env_noacq : Nat → SpannerMutex.CycleEnv := fun _ =>
  { needed := Except.ok true, read := SpannerMutex.ReadOutcome.rows [], now_utc := 0,
    jitter_in_secs := 0, acquire_outcome := SpannerMutex.UpsertOutcome.committed false,
    critical_section_error := none,
    release_outcome := SpannerMutex.UpsertOutcome.committed true,
    release_after_error_outcome := SpannerMutex.UpsertOutcome.committed true }

theorem hexCharVal_hexDigitChar : ∀ d : Nat, d < 16 → hexCharVal (hexDigitChar d) = some d := by
  decide

theorem hexDigitChar_ne_hyphen : ∀ d : Nat, d < 16 → (hexDigitChar d != hyphenChar) = true := by
  decide

theorem is_brace_hexDigitChar : ∀ d : Nat, d < 16 → is_brace (hexDigitChar d) = false := by
  decide

theorem is_brace_hyphenChar : is_brace hyphenChar = false := by
  decide

theorem length_hexDigitsPadded : ∀ k n : Nat, (hexDigitsPadded k n).length = k := by
  intro k
  induction k with
  | zero => intro n; rfl
  | succ k ih => intro n; simp [hexDigitsPadded, ih]

theorem mem_hexDigitsPadded_lt : ∀ k n : Nat, ∀ d ∈ hexDigitsPadded k n, d < 16 := by
  intro k
  induction k with
  | zero => intro n d hd; simp [hexDigitsPadded] at hd
  | succ k ih =>
    intro n d hd
    simp only [hexDigitsPadded, List.mem_cons] at hd
    rcases hd with h | h
    · subst h; exact Nat.mod_lt _ (by norm_num)
    · exact ih _ d h

theorem ofDigits_hexDigitsPadded : ∀ k n : Nat, n < 16 ^ k →
    Nat.ofDigits 16 (hexDigitsPadded k n) = n := by
  intro k
  induction k with
  | zero =>
    intro n h
    have : n = 0 := by simpa using h
    subst this
    rfl
  | succ k ih =>
    intro n h
    have hdiv : n / 16 < 16 ^ k := by
      rw [Nat.div_lt_iff_lt_mul (by norm_num : 0 < 16)]
      calc n < 16 ^ (k + 1) := h
        _ = 16 ^ k * 16 := by rw [pow_succ]
    simp only [hexDigitsPadded, Nat.ofDigits_cons, ih (n / 16) hdiv]
    omega

theorem dropWhile_eq_self_of_all (p : Char → Bool) (l : List Char)
    (h : ∀ c ∈ l, p c = false) : l.dropWhile p = l := by
  cases l with
  | nil => rfl
  | cons a t => simp [List.dropWhile_cons, h a (by simp)]

theorem strip_braces_braced_eq (l : List Char) (h : ∀ c ∈ l, is_brace c = false) :
    strip_braces (lbraceChar :: (l ++ [rbraceChar])) = l := by
  have hlb : is_brace lbraceChar = true := by decide
  have hrb : is_brace rbraceChar = true := by decide
  unfold strip_braces
  cases l with
  | nil => decide
  | cons a t =>
    have ha : is_brace a = false := h a (by simp)
    have hrevdrop : ((t.reverse ++ [a]).dropWhile is_brace) = t.reverse ++ [a] := by
      apply dropWhile_eq_self_of_all
      intro c hc
      rcases List.mem_append.mp hc with hc | hc
      · exact h c (by simp [List.mem_reverse.mp hc])
      · simp at hc; subst hc; exact ha
    simp [List.dropWhile_cons, hlb, hrb, ha, hrevdrop]

theorem take_drop_recombine (l : List Char) :
    l.take 8 ++ ((l.drop 8).take 4 ++ ((l.drop 12).take 4 ++ ((l.drop 16).take 4 ++ l.drop 20))) = l := by
  have h12 : (l.drop 8).drop 4 = l.drop 12 := by rw [List.drop_drop]
  have h16 : (l.drop 12).drop 4 = l.drop 16 := by rw [List.drop_drop]
  have h20 : (l.drop 16).drop 4 = l.drop 20 := by rw [List.drop_drop]
  rw [← h20, List.take_append_drop, ← h16, List.take_append_drop, ← h12, List.take_append_drop,
    List.take_append_drop]

theorem filter_insertHyphens (l : List Char) (h : ∀ c ∈ l, (c != hyphenChar) = true) :
    (insertHyphens l).filter (fun c => c != hyphenChar) = l := by
  have hchunk : ∀ m : List Char, (∀ c ∈ m, c ∈ l) → m.filter (fun c => c != hyphenChar) = m := by
    intro m hm
    apply List.filter_eq_self.mpr
    intro a ha
    exact h a (hm a ha)
  unfold insertHyphens
  simp only [List.filter_append, List.filter_cons]
  have hh : ((hyphenChar != hyphenChar) = true) = False := by decide
  simp only [hh, if_false]
  rw [hchunk (l.take 8) (fun c hc => List.take_subset _ _ hc),
    hchunk ((l.drop 8).take 4) (fun c hc => List.drop_subset _ _ (List.take_subset _ _ hc)),
    hchunk ((l.drop 12).take 4) (fun c hc => List.drop_subset _ _ (List.take_subset _ _ hc)),
    hchunk ((l.drop 16).take 4) (fun c hc => List.drop_subset _ _ (List.take_subset _ _ hc)),
    hchunk (l.drop 20) (fun c hc => List.drop_subset _ _ hc)]
  exact take_drop_recombine l

theorem forall_mem_insertHyphens {P : Char → Prop} (l : List Char) (hl : ∀ c ∈ l, P c)
    (hh : P hyphenChar) : ∀ c ∈ insertHyphens l, P c := by
  intro c hc
  unfold insertHyphens at hc
  simp only [List.mem_append, List.mem_cons] at hc
  rcases hc with hc | hc | hc | hc | hc | hc | hc | hc | hc
  · exact hl c (List.take_subset _ _ hc)
  · subst hc; exact hh
  · exact hl c (List.drop_subset _ _ (List.take_subset _ _ hc))
  · subst hc; exact hh
  · exact hl c (List.drop_subset _ _ (List.take_subset _ _ hc))
  · subst hc; exact hh
  · exact hl c (List.drop_subset _ _ (List.take_subset _ _ hc))
  · subst hc; exact hh
  · exact hl c (List.drop_subset _ _ hc)

theorem hexVals_map_hexDigitChar (ds : List Nat) (h : ∀ d ∈ ds, d < 16) :
    hexVals (ds.map hexDigitChar) = some ds := by
  induction ds with
  | nil => rfl
  | cons d t ih =>
    simp only [List.map_cons, hexVals, hexCharVal_hexDigitChar d (h d (by simp)),
      ih (fun x hx => h x (by simp [hx]))]

theorem mem_uuidHexChars (u : Nat) : ∀ c ∈ uuidHexChars u, ∃ d, d < 16 ∧ c = hexDigitChar d := by
  intro c hc
  unfold uuidHexChars at hc
  obtain ⟨d, hd, rfl⟩ := List.mem_map.mp hc
  exact ⟨d, mem_hexDigitsPadded_lt _ _ d (List.mem_reverse.mp hd), rfl⟩

/-- Round-trip of the UUID string codec: parsing the brace-wrapped canonical
string of any 128-bit UUID value recovers the value. -/
theorem str_uuid_converter_uuid_str (u : Nat) (hu : u < 2 ^ 128) :
    str_uuid_converter (uuid_str u) = some u := by
  have hnb : ∀ c ∈ uuidHexChars u, is_brace c = false := by
    intro c hc
    obtain ⟨d, hd, rfl⟩ := mem_uuidHexChars u c hc
    exact is_brace_hexDigitChar d hd
  have hnh : ∀ c ∈ uuidHexChars u, (c != hyphenChar) = true := by
    intro c hc
    obtain ⟨d, hd, rfl⟩ := mem_uuidHexChars u c hc
    exact hexDigitChar_ne_hyphen d hd
  have hins : ∀ c ∈ insertHyphens (uuidHexChars u), is_brace c = false :=
    forall_mem_insertHyphens _ hnb is_brace_hyphenChar
  have hlen : (uuidHexChars u).length = 32 := by
    unfold uuidHexChars uuidDigitsLE
    simp [length_hexDigitsPadded]
  have hvals : hexVals (uuidHexChars u) = some ((uuidDigitsLE u).reverse) :=
    hexVals_map_hexDigitChar _ (fun d hd => mem_hexDigitsPadded_lt _ _ d (List.mem_reverse.mp hd))
  have hofd : Nat.ofDigits 16 (uuidDigitsLE u) = u := by
    unfold uuidDigitsLE
    apply ofDigits_hexDigitsPadded 32 u
    calc u < 2 ^ 128 := hu
      _ = 16 ^ 32 := by norm_num
  show uuid_from_str (braced (uuid_str u)) = some u
  unfold braced uuid_str uuid_from_str
  rw [show (String.mk (lbraceChar :: ((String.mk (insertHyphens (uuidHexChars u))).data ++ [rbraceChar]))).data
      = lbraceChar :: (insertHyphens (uuidHexChars u) ++ [rbraceChar]) from rfl]
  rw [strip_braces_braced_eq _ hins, filter_insertHyphens _ hnh]
  simp only [hlen, hvals, List.reverse_reverse, hofd]
  rfl

/-- Status wire values decode back to the status they encode. -/
theorem from_str_value : ∀ st : MutexStatus, MutexStatus.from_str st.value = st := by
  intro st
  cases st <;> decide

/-- C1: the claim states `_is_watermark_breached` is true for a present
state iff `update_time_utc + T + jitter < now_utc`. The source computes the
reverse comparison: it returns true iff `now_utc < update_time_utc + T +
jitter` (first conjunct), so it answers true on a maximally fresh state
(second conjunct, where `now_utc ≤ update_time_utc + T`, which the claim
says must be false) and false on a long-expired state (third conjunct,
where `update_time_utc + T + max_jitter < now_utc`, which the claim says
must be true). -/
theorem C1_watermark_comparison_reversed :
    (∀ (config : MutexConfig) (j : Nat) (s : MutexState) (now_utc : Int),
      SpannerMutex.is_watermark_breached config j (some s) now_utc =
        decide (now_utc < s.update_time_utc + (config.mutex_ttl_in_secs : Int) + (j : Int))) ∧
    SpannerMutex.is_watermark_breached cfg_min 0 (some (state_at 0 MutexStatus.STARTED)) 0 = true ∧
    SpannerMutex.is_watermark_breached cfg_min 0 (some (state_at 0 MutexStatus.STARTED)) 1000 = false := by
  refine ⟨?_, by decide, by decide⟩
  intro config j s now_utc
  simp only [SpannerMutex.is_watermark_breached, MutexState.is_state_stale]
  apply decide_eq_decide.mpr
  omega

/-- C2: the claim states that a present `FAILED` (or `UNKNOWN`) state is
reacquired for every drawable jitter once `now_utc > update_time_utc + T +
floor(T*5%)`. At T = 10, staleness = 11, a `FAILED` state updated at 0 and
`now_utc = 11 > 0 + 10 + 0`, the source returns false for both drawable
jitter values (the jitter bound at T = 10 is `max(10/20, 1) = 1`), because
the inverted watermark comparison of C1 makes the TTL branch false and the
state is not yet stale. -/
theorem C2_failed_state_not_retried_after_ttl :
    SpannerMutex.should_try_to_acquire_mutex cfg_min 0 (some (state_at 0 MutexStatus.FAILED)) 11 = false ∧
    SpannerMutex.should_try_to_acquire_mutex cfg_min 1 (some (state_at 0 MutexStatus.FAILED)) 11 = false ∧
    SpannerMutex.max_jitter_in_secs cfg_min = 1 ∧
    ((0 : Int) + (cfg_min.mutex_ttl_in_secs : Int) + ((cfg_min.mutex_ttl_in_secs : Int) / 20) < 11) := by
  decide

/-- C3: a present `DONE` state with `now_utc ≤ update_time_utc + S` is never
preempted, whatever jitter is drawn: the staleness branch is false because
the state is within the staleness horizon, and the TTL branch is disabled
because the status is `DONE`. -/
theorem C3_fresh_done_not_preempted (config : MutexConfig) (j : Nat) (s : MutexState)
    (now_utc : Int) (hstatus : s.status = MutexStatus.DONE)
    (hfresh : now_utc ≤ s.update_time_utc + (config.mutex_staleness_in_secs : Int)) :
    SpannerMutex.should_try_to_acquire_mutex config j (some s) now_utc = false := by
  have hstale : SpannerMutex.is_state_stale config (some s) now_utc = false := by
    simp only [SpannerMutex.is_state_stale, decide_eq_false_iff_not]
    omega
  have hdone : SpannerMutex.is_critical_section_done_or_started (some s) = true := by
    simp only [SpannerMutex.is_critical_section_done_or_started, hstatus]
    decide
  simp [SpannerMutex.should_try_to_acquire_mutex, hstale, hdone]

theorem C3_witness :
    SpannerMutex.should_try_to_acquire_mutex cfg_min 0 (some (state_at 0 MutexStatus.DONE)) 11 = false :=
  C3_fresh_done_not_preempted cfg_min 0 (state_at 0 MutexStatus.DONE) 11 (by decide) (by decide)

/-- C4: inside the transactional predicate, a present current row decoding
to a state whose `update_client_uuid` equals this client, written with a
candidate row whose status column differs from the current row's status
column, is always accepted; and an absent current row is always accepted
(the `StopIteration` branch leaves the result true). -/
theorem C4_can_upsert_same_client_and_absent :
    (∀ (config : MutexConfig) (client_uuid j : Nat) (er row : SpannerRow) (now_utc : Int)
      (curr_state : MutexState),
      MutexState.from_spanner_row er now_utc = Except.ok curr_state →
      curr_state.update_client_uuid = client_uuid →
      row.status ≠ er.status →
      SpannerMutex.can_upsert config client_uuid j (some er) row now_utc = Except.ok true) ∧
    (∀ (config : MutexConfig) (client_uuid j : Nat) (row : SpannerRow) (now_utc : Int),
      SpannerMutex.can_upsert config client_uuid j none row now_utc = Except.ok true) := by
  constructor
  · intro config client_uuid j er row now_utc curr_state hdec hcli hst
    simp [SpannerMutex.can_upsert, hdec, hcli, hst]
  · intro config client_uuid j row now_utc
    rfl

theorem C4_witness :
    SpannerMutex.can_upsert cfg_min 5 0 (some row_started5) row_candidate_done 3 = Except.ok true ∧
    SpannerMutex.can_upsert cfg_min 5 0 none row_candidate_done 3 = Except.ok true :=
  ⟨C4_can_upsert_same_client_and_absent.1 cfg_min 5 0 row_started5 row_candidate_done 3
      state_started5 (by decide) (by decide) (by decide),
    C4_can_upsert_same_client_and_absent.2 cfg_min 5 0 row_candidate_done 3⟩

/-- C5: constructing a config with `staleness ≤ max(ttl, retries * wait)`
always fails (either a per-field bound already fails, or the post-init
staleness relation does), and any construction satisfying the per-field
bounds and `staleness > max(ttl, retries * wait)` succeeds. -/
theorem C5_config_staleness_invariant :
    (∀ (mu : Nat) (i d t : String) (p m : Option String) (ttl stal wait retries : Int),
      stal ≤ max ttl (retries * wait) →
      (mkMutexConfig mu i d t p m ttl stal wait retries).isOk = false) ∧
    (∀ (mu : Nat) (i d t : String) (p m : Option String) (ttl stal wait retries : Int),
      MIN_MUTEX_TTL_IN_SECONDS ≤ ttl →
      MIN_MUTEX_WAIT_TIME_IN_SECONDS ≤ wait →
      MIN_MUTEX_MAX_RETRIES ≤ retries →
      max ttl (retries * wait) < stal →
      (mkMutexConfig mu i d t p m ttl stal wait retries).isOk = true) := by
  constructor
  · intro mu i d t p m ttl stal wait retries hle
    rw [max_comm] at hle
    unfold mkMutexConfig
    split_ifs <;> rfl
  · intro mu i d t p m ttl stal wait retries httl hwait hretr hstal
    have httl10 : (10 : Int) ≤ ttl := httl
    have hwait1 : (1 : Int) ≤ wait := hwait
    have hretr5 : (5 : Int) ≤ retries := hretr
    have hstal_ttl : ttl < stal := lt_of_le_of_lt (le_max_left _ _) hstal
    have hstal_rw : retries * wait < stal := lt_of_le_of_lt (le_max_right _ _) hstal
    unfold mkMutexConfig
    rw [if_neg (by omega), if_neg (by
        simp only [MIN_MUTEX_STALENESS_IN_SECONDS, MIN_MUTEX_TTL_IN_SECONDS]
        omega),
      if_neg (by omega), if_neg (by omega),
      if_neg (not_le.mpr (max_lt hstal_rw hstal_ttl))]
    rfl

theorem C5_witness :
    (mkMutexConfig 0 "i" "d" "t" none none 10 10 1 5).isOk = false ∧
    (mkMutexConfig 0 "i" "d" "t" none none 10 11 1 5).isOk = true :=
  ⟨C5_config_staleness_invariant.1 0 "i" "d" "t" none none 10 10 1 5 (by decide),
    C5_config_staleness_invariant.2 0 "i" "d" "t" none none 10 11 1 5 (by decide) (by decide)
      (by decide) (by decide)⟩

/-- C6: `_release_mutex` writes status `DONE` when no error is carried and
`FAILED` otherwise; a rejected predicate (upsert returns false) or a TRS
raise (caught by `_set_mutex` and turned into false) makes the release fail
with a `SpannerMutexError`; a committed upsert returns normally when no
error was carried, and fails with a `SpannerMutexError` chaining the error
otherwise. -/
theorem C6_release_mutex_contract :
    (∀ (config : MutexConfig) (cu : Nat) (cdn : String) (now_utc : Int),
      (SpannerMutex.release_state config cu cdn now_utc none).status = MutexStatus.DONE) ∧
    (∀ (config : MutexConfig) (cu : Nat) (cdn : String) (now_utc : Int) (e : String),
      (SpannerMutex.release_state config cu cdn now_utc (some e)).status = MutexStatus.FAILED) ∧
    (∀ (config : MutexConfig) (cu : Nat) (cdn : String) (now_utc : Int) (error : Option String),
      SpannerMutex.release_mutex config cu cdn now_utc error
          (SpannerMutex.UpsertOutcome.committed false) =
        Except.error (SpannerMutex.SpannerMutexError.could_not_release
          (SpannerMutex.release_state config cu cdn now_utc error) error)) ∧
    (∀ (config : MutexConfig) (cu : Nat) (cdn : String) (now_utc : Int) (error : Option String)
      (msg : String),
      SpannerMutex.release_mutex config cu cdn now_utc error
          (SpannerMutex.UpsertOutcome.raises msg) =
        Except.error (SpannerMutex.SpannerMutexError.could_not_release
          (SpannerMutex.release_state config cu cdn now_utc error) error)) ∧
    (∀ (config : MutexConfig) (cu : Nat) (cdn : String) (now_utc : Int),
      SpannerMutex.release_mutex config cu cdn now_utc none
          (SpannerMutex.UpsertOutcome.committed true) = Except.ok ()) ∧
    (∀ (config : MutexConfig) (cu : Nat) (cdn : String) (now_utc : Int) (e : String),
      SpannerMutex.release_mutex config cu cdn now_utc (some e)
          (SpannerMutex.UpsertOutcome.committed true) =
        Except.error (SpannerMutex.SpannerMutexError.critical_section_failed e)) :=
  ⟨fun _ _ _ _ => rfl, fun _ _ _ _ _ => rfl, fun _ _ _ _ _ => rfl, fun _ _ _ _ _ _ => rfl,
    fun _ _ _ _ => rfl, fun _ _ _ _ _ => rfl⟩

/-- C7, counterexample: an infrastructure failure of the snapshot read
surfaces from `status` as the raw exception, not as a `SpannerMutexError`
(only `StopIteration` is caught in `_state`). -/
theorem C7_counterexample :
    SpannerMutex.status (SpannerMutex.ReadOutcome.raises "TRS unavailable") 0 =
      Except.error (SpannerMutex.PyErr.raw "TRS unavailable") ∧
    SpannerMutex.PyErr.is_mutex_error (SpannerMutex.PyErr.raw "TRS unavailable") = false := by
  decide

/-- C7, amended: an infrastructure failure of the TRS snapshot read during
`status` or `_state` propagates to the caller unchanged, as the raw
underlying exception, never wrapped into a `SpannerMutexError`; only the
absent-row case is handled, yielding `UNKNOWN` / no state. -/
theorem C7_amended_read_failures_propagate_raw :
    ∀ (msg : String) (now_utc : Int),
      SpannerMutex.state (SpannerMutex.ReadOutcome.raises msg) now_utc =
        Except.error (SpannerMutex.PyErr.raw msg) ∧
      SpannerMutex.status (SpannerMutex.ReadOutcome.raises msg) now_utc =
        Except.error (SpannerMutex.PyErr.raw msg) ∧
      SpannerMutex.PyErr.is_mutex_error (SpannerMutex.PyErr.raw msg) = false ∧
      SpannerMutex.status (SpannerMutex.ReadOutcome.rows []) now_utc =
        Except.ok MutexStatus.UNKNOWN :=
  fun _ _ => ⟨rfl, rfl, rfl, rfl⟩

/-- C8: decoding the row produced by encoding any state, after the commit
timestamp placeholder is replaced by a known timestamp, recovers the state
with that timestamp: uuid, display name, status, client uuid and client
display name all round-trip. -/
theorem C8_row_roundtrip (s : MutexState) (ts now_utc : Int)
    (hu : s.uuid < 2 ^ 128) (hcu : s.update_client_uuid < 2 ^ 128) :
    MutexState.from_spanner_row ((s.to_spanner_row true).set_update_time ts) now_utc =
      Except.ok { s with update_time_utc := ts } := by
  simp [MutexState.from_spanner_row, MutexState.to_spanner_row, SpannerRow.set_update_time,
    str_uuid_converter_uuid_str s.uuid hu, str_uuid_converter_uuid_str s.update_client_uuid hcu,
    from_str_value]

theorem C8_witness :
    MutexState.from_spanner_row ((state_started5.to_spanner_row true).set_update_time 7) 99 =
      Except.ok { state_started5 with update_time_utc := 7 } :=
  C8_row_roundtrip state_started5 7 99 (by decide) (by decide)

/-- Cycle body lemma: an unsuccessful cycle (the read succeeds and either
the client decides not to try or the acquire does not commit) falls through
to the retry path. -/
theorem run_cycle_proceeds (config : MutexConfig) (cu : Nat) (cdn : String)
    (c : SpannerMutex.CycleEnv) (st : Option MutexState)
    (hst : SpannerMutex.state c.read c.now_utc = Except.ok st)
    (hb : SpannerMutex.should_try_to_acquire_mutex config c.jitter_in_secs st c.now_utc = false ∨
      SpannerMutex.set_mutex
        (SpannerMutex.create_state config cu cdn MutexStatus.STARTED c.now_utc)
        c.acquire_outcome = false) :
    SpannerMutex.run_cycle config cu cdn c = SpannerMutex.CycleOutcome.proceed := by
  unfold SpannerMutex.run_cycle
  rw [hst]
  rcases hb with hb | hb
  · simp [hb]
  · simp [hb]

/-- Exhaustion lemma for the `start()` loop: while the callback keeps
answering true, every snapshot read succeeds, and every cycle either
decides not to try or fails to commit the acquire, the loop runs its
remaining budget down and exits normally. -/
theorem start_loop_exhausts (config : MutexConfig) (cu : Nat) (cdn : String)
    (env : Nat → SpannerMutex.CycleEnv)
    (hneeded : ∀ i, i ≤ config.mutex_max_retries → (env i).needed = Except.ok true)
    (hcycle : ∀ i, i < config.mutex_max_retries → ∃ st,
      SpannerMutex.state (env i).read (env i).now_utc = Except.ok st ∧
      (SpannerMutex.should_try_to_acquire_mutex config (env i).jitter_in_secs st
          (env i).now_utc = false ∨
        SpannerMutex.set_mutex
          (SpannerMutex.create_state config cu cdn MutexStatus.STARTED (env i).now_utc)
          (env i).acquire_outcome = false)) :
    ∀ fuel retries, retries + fuel = config.mutex_max_retries →
      SpannerMutex.start_loop config cu cdn env fuel retries false =
        SpannerMutex.StartResult.normal config.mutex_max_retries false := by
  intro fuel
  induction fuel with
  | zero =>
    intro retries h
    have hr : retries = config.mutex_max_retries := by omega
    have hn := hneeded retries (by omega)
    rw [hr] at hn
    simp [SpannerMutex.start_loop, hn, hr]
  | succ fuel ih =>
    intro retries h
    have hlt : retries < config.mutex_max_retries := by omega
    obtain ⟨st, hst, hbranch⟩ := hcycle retries hlt
    have hrun := run_cycle_proceeds config cu cdn (env retries) st hst hbranch
    have hn := hneeded retries (by omega)
    have hdec : decide (retries < config.mutex_max_retries) = true := decide_eq_true hlt
    conv_lhs => rw [SpannerMutex.start_loop]
    simp only [hn, hdec, hrun, Bool.true_and, if_true]
    exact ih (retries + 1) (by omega)

/-- C9: when the mutex stays needed, every snapshot read succeeds, no
acquire commits, and no callback raises, `start()` returns normally after
exactly `mutex_max_retries` cycles, without raising. -/
theorem C9_start_exhausts_normally (config : MutexConfig) (cu : Nat) (cdn : String)
    (env : Nat → SpannerMutex.CycleEnv)
    (hneeded : ∀ i, i ≤ config.mutex_max_retries → (env i).needed = Except.ok true)
    (hcycle : ∀ i, i < config.mutex_max_retries → ∃ st,
      SpannerMutex.state (env i).read (env i).now_utc = Except.ok st ∧
      (SpannerMutex.should_try_to_acquire_mutex config (env i).jitter_in_secs st
          (env i).now_utc = false ∨
        SpannerMutex.set_mutex
          (SpannerMutex.create_state config cu cdn MutexStatus.STARTED (env i).now_utc)
          (env i).acquire_outcome = false)) :
    SpannerMutex.start config cu cdn none env =
      SpannerMutex.StartResult.normal config.mutex_max_retries false :=
  start_loop_exhausts config cu cdn env hneeded hcycle config.mutex_max_retries 0 (by omega)

theorem C9_witness :
    SpannerMutex.start cfg_min 1 "c" none env_noacq =
      SpannerMutex.StartResult.normal cfg_min.mutex_max_retries false :=
  C9_start_exhausts_normally cfg_min 1 "c" env_noacq (fun _ _ => rfl)
    (fun _ _ => ⟨none, rfl, Or.inr rfl⟩)

/-- C10: a row whose `update_time_utc` column is missing decodes without
failing, with `update_time_utc` defaulted to the decode-time clock. The
decoded state is not stale for the controller, and is not watermark-breached
in the spec's sense of the predicate; the source's `_is_watermark_breached`,
however, answers true on it, because its comparison is inverted (C1). -/
theorem C10_missing_update_time_defaults_to_now (config : MutexConfig) (j : Nat)
    (row : SpannerRow) (now_utc : Int) (u cu : Nat)
    (hmiss : row.update_time_utc = none)
    (hu : str_uuid_converter row.uuid = some u)
    (hcu : str_uuid_converter row.update_client_uuid = some cu)
    (httl : 1 ≤ config.mutex_ttl_in_secs) :
    ∃ st, MutexState.from_spanner_row row now_utc = Except.ok st ∧
      st.update_time_utc = now_utc ∧
      SpannerMutex.is_state_stale config (some st) now_utc = false ∧
      SpannerMutex.is_watermark_breached_spec config j (some st) now_utc = false ∧
      SpannerMutex.is_watermark_breached config j (some st) now_utc = true := by
  refine
    ⟨{ uuid := u, display_name := row.display_name,
       status := MutexStatus.from_str row.status, update_time_utc := now_utc,
       update_client_uuid := cu,
       update_client_display_name := row.update_client_display_name },
      ?_, rfl, ?_, ?_, ?_⟩
  · simp [MutexState.from_spanner_row, hmiss, hu, hcu]
  · simp only [SpannerMutex.is_state_stale, decide_eq_false_iff_not]
    omega
  · simp only [SpannerMutex.is_watermark_breached_spec, decide_eq_false_iff_not]
    omega
  · simp only [SpannerMutex.is_watermark_breached, MutexState.is_state_stale,
      decide_eq_true_eq]
    omega

theorem C10_witness :
    ∃ st, MutexState.from_spanner_row row_no_time 42 = Except.ok st ∧
      st.update_time_utc = 42 ∧
      SpannerMutex.is_state_stale cfg_min (some st) 42 = false ∧
      SpannerMutex.is_watermark_breached_spec cfg_min 0 (some st) 42 = false ∧
      SpannerMutex.is_watermark_breached cfg_min 0 (some st) 42 = true :=
  C10_missing_update_time_defaults_to_now cfg_min 0 row_no_time 42 0 5 rfl (by decide)
    (by decide) (by decide)

end PySpannerMutex
